import Mathlib

/-!
Verification development for the PulseGuard risk engine and chat widget.

The drift analyzer, stage classifier and risk-score calculator live in the
backend (`utils/ml_engine.py`), which is not part of the available sources;
those components are modelled from the specification (`spec.md` §4.2–§4.4)
and from the backend README's drift table. The chat widget
(`frontend/chatbot.js`) is embedded directly from its source.

Numeric values are modelled with exact rationals (and reals where the
specification prescribes an exponential transform); machine floating point
is abstracted to exact arithmetic.
-/

/-! ## Drift analyzer (spec §4.4, README "Risk Drift Detection Logic") -/

/-- Alert levels of a drift evaluation. -/
inductive AlertLevel
  | STABLE
  | MODERATE
  | HIGH
deriving DecidableEq, Repr

/-- Modelled from the spec: result record of a drift evaluation
(`DriftResult` in spec §3); the `trend` field carries the reported trend
string (`INCREASING`/`DECREASING`/`FLAT`, or `insufficient data`). -/
structure DriftResult where
  alert_level : AlertLevel
  drift_value : ℚ
  slope : ℚ
  trend : String
  message : String
deriving DecidableEq, Repr

/-- Modelled from the spec: ordinary least-squares slope of the three risk
scores against visit indices 0, 1, 2 (spec §4.4 step 2), written with the
standard OLS formula. -/
def olsSlope (y0 y1 y2 : ℚ) : ℚ :=
  (3 * (0 * y0 + 1 * y1 + 2 * y2) - (0 + 1 + 2) * (y0 + y1 + y2)) /
    (3 * (0 ^ 2 + 1 ^ 2 + 2 ^ 2) - (0 + 1 + 2) ^ 2)

/-- Modelled from the spec: percentage change from the first to the last
risk score, with the division-by-zero guard of spec §4.4 step 3: when the
first score is 0 the raw absolute increase is used instead. -/
def driftValue (first last : ℚ) : ℚ :=
  if first = 0 then last - first else (last - first) / first * 100

/-- Modelled from the spec: alert classification in priority order
(spec §4.4 step 4). -/
def classifyDrift (drift slope : ℚ) : AlertLevel :=
  if 25 ≤ drift ∧ 0 < slope then AlertLevel.HIGH
  else if 15 ≤ drift ∧ 0 < slope then AlertLevel.MODERATE
  else AlertLevel.STABLE

/-- Modelled from the spec: trend string from the fitted slope
(spec §4.4 step 5). -/
def trendOf (slope : ℚ) : String :=
  if 0 < slope then "INCREASING"
  else if slope < 0 then "DECREASING"
  else "FLAT"

/-- Modelled from the spec: human-readable message keyed by alert level
(spec §4.4 step 6). -/
def driftMessage : AlertLevel → String
  | AlertLevel.HIGH => "HIGH ALERT: risk score is rising rapidly"
  | AlertLevel.MODERATE => "MODERATE: risk score is drifting upward"
  | AlertLevel.STABLE => "STABLE: no significant risk drift"

/-- Modelled from the spec: `detect_risk_drift` of `utils/ml_engine.py`
(absent from the sources), per spec §4.4: with fewer than 3 points it
returns a STABLE result flagged `insufficient data`; otherwise it fits an
OLS line over the last 3 points and classifies the percentage drift. -/
def detectRiskDrift (history : List (ℕ × ℚ)) : DriftResult :=
  if history.length < 3 then
    { alert_level := AlertLevel.STABLE, drift_value := 0, slope := 0,
      trend := "insufficient data",
      message := "Insufficient visit history for drift analysis" }
  else
    match history.drop (history.length - 3) with
    | (_, y0) :: (_, y1) :: (_, y2) :: _ =>
      { alert_level := classifyDrift (driftValue y0 y2) (olsSlope y0 y1 y2),
        drift_value := driftValue y0 y2,
        slope := olsSlope y0 y1 y2,
        trend := trendOf (olsSlope y0 y1 y2),
        message := driftMessage (classifyDrift (driftValue y0 y2) (olsSlope y0 y1 y2)) }
    | _ =>
      { alert_level := AlertLevel.STABLE, drift_value := 0, slope := 0,
        trend := "insufficient data",
        message := "Insufficient visit history for drift analysis" }

/-! ## Stage classifier and risk score calculator (spec §4.2, §4.3) -/

/-- The four ordered hypertension severity stages (spec §3). -/
inductive Stage
  | Normal
  | Stage1
  | Stage2
  | Crisis
deriving DecidableEq, Repr

/-- Stage of a class index, in severity order Normal < Stage1 < Stage2 < Crisis. -/
def stageOfIdx : Fin 4 → Stage
  | 0 => Stage.Normal
  | 1 => Stage.Stage1
  | 2 => Stage.Stage2
  | 3 => Stage.Crisis

/-- Class index (severity rank) of a stage. -/
def stageIdx : Stage → Fin 4
  | Stage.Normal => 0
  | Stage.Stage1 => 1
  | Stage.Stage2 => 2
  | Stage.Crisis => 3

/-- Modelled from the spec: index of the maximum of four values, ties
broken towards the lower index (spec §4.2: "ties broken by the
lower-severity stage index"). -/
def argmax4 {α : Type} [LinearOrder α] (p : Fin 4 → α) : Fin 4 :=
  if p 0 < p 1 then
    if p 1 < p 2 then
      if p 2 < p 3 then 3 else 2
    else
      if p 1 < p 3 then 3 else 1
  else
    if p 0 < p 2 then
      if p 2 < p 3 then 3 else 2
    else
      if p 0 < p 3 then 3 else 0

/-- Modelled from the spec: maximum of the four per-class linear scores,
subtracted before exponentiating for numerical stability (spec §4.2). -/
noncomputable def maxScore (s : Fin 4 → ℝ) : ℝ :=
  max (max (s 0) (s 1)) (max (s 2) (s 3))

/-- Modelled from the spec: shifted exponential of one class score
(spec §4.2, the stable normalized-exponential transform). -/
noncomputable def expShift (s : Fin 4 → ℝ) (i : Fin 4) : ℝ :=
  Real.exp (s i - maxScore s)

/-- Modelled from the spec: normalizing constant of the exponential
transform. -/
noncomputable def sumExp (s : Fin 4 → ℝ) : ℝ :=
  expShift s 0 + expShift s 1 + expShift s 2 + expShift s 3

/-- Modelled from the spec: class probability, expressed as a percentage
(spec §4.2), of the stage classifier `predict_hypertension` in
`utils/ml_engine.py` (absent from the sources). -/
noncomputable def probPct (s : Fin 4 → ℝ) (i : Fin 4) : ℝ :=
  expShift s i / sumExp s * 100

/-- Modelled from the spec: predicted stage label — the class of maximum
probability, ties broken towards the lower-severity index (spec §4.2). -/
noncomputable def predictStage (s : Fin 4 → ℝ) : Stage :=
  stageOfIdx (argmax4 (probPct s))

/-- Declared risk-score band of each stage (spec §4.3, README
"Hypertension Stages"). -/
def stageBand : Stage → ℚ × ℚ
  | Stage.Normal => (0, 25)
  | Stage.Stage1 => (25, 50)
  | Stage.Stage2 => (50, 75)
  | Stage.Crisis => (75, 100)

/-- Modelled from the spec: risk score calculator (spec §4.3) — the score
is placed inside the predicted stage's declared 25-point band
proportionally to that stage's own probability mass, the variant of the
two formulas offered by §4.3 that satisfies its own band requirement. -/
def riskScore (p : Fin 4 → ℚ) : ℚ :=
  25 * ((argmax4 p : Fin 4) : ℕ) + 25 * (p (argmax4 p) / 100)

/-! ## Chat widget (src/frontend/chatbot.js) -/

/-- One escaped character: serializing a DOM text node (the
`textContent` / `innerHTML` round-trip of `escapeHtml` in
`frontend/chatbot.js`, lines 126-130) escapes exactly the markup
characters ampersand, less-than and greater-than. -/
def escChar (c : Char) : List Char :=
  if c = '&' then ['&', 'a', 'm', 'p', ';']
  else if c = '<' then ['&', 'l', 't', ';']
  else if c = '>' then ['&', 'g', 't', ';']
  else [c]

/-- Escape a character list, character by character. -/
def escList : List Char → List Char
  | [] => []
  | c :: cs => escChar c ++ escList cs

/-- `escapeHtml` of `frontend/chatbot.js`: HTML-escape a string. -/
def escapeHtml (s : String) : String := ⟨escList s.data⟩

/-- The three entity tails that may follow an ampersand in escaped
output. -/
def entityTails : List (List Char) :=
  [['a', 'm', 'p', ';'], ['l', 't', ';'], ['g', 't', ';']]

/-- Every ampersand in the list begins one of the entities `&amp;`,
`&lt;` or `&gt;`. -/
def ampEntitiesOnly : List Char → Bool
  | [] => true
  | c :: r =>
    (if c = '&' then entityTails.any (fun t => t.isPrefixOf r) else true) &&
      ampEntitiesOnly r

/-- The user chat bubble markup built by `sendChatMsg`
(`frontend/chatbot.js` line 37): the typed text enters only through
`escapeHtml`. -/
def userBubbleHtml (txt : String) : String :=
  "<div class=\"chat-bubble user-bubble\">" ++ escapeHtml txt ++ "</div>"

/-- A chat message element: its class attribute and inner markup. -/
structure ChatMessage where
  cls : String
  html : String
deriving DecidableEq, Repr

/-- Observable state of the chat widget: the text field's value, the
appended message elements, and the network requests issued (their
question payloads). -/
structure ChatState where
  inputValue : String
  messages : List ChatMessage
  requests : List String
deriving DecidableEq, Repr

/-- JavaScript `String.prototype.trim`: drop leading and trailing
whitespace. -/
def jsTrim (s : String) : String :=
  ⟨((s.data.dropWhile Char.isWhitespace).reverse.dropWhile Char.isWhitespace).reverse⟩

/-- The synchronous part of `sendChatMsg` (`frontend/chatbot.js`
lines 24-52): trim the field; if empty, return with no effect; otherwise
append the escaped user bubble, clear the field, and send the trimmed
text to the backend. -/
def sendChatMsg (st : ChatState) : ChatState :=
  if jsTrim st.inputValue = "" then st
  else
    { inputValue := "",
      messages := st.messages ++
        [{ cls := "chat-msg user", html := userBubbleHtml (jsTrim st.inputValue) }],
      requests := st.requests ++ [jsTrim st.inputValue] }

/-- A parsed backend response object: its three optional text fields
(`frontend/chatbot.js` lines 59-70); a missing field is `none`. -/
structure BotResponse where
  response : Option String
  advice : Option String
  reply : Option String
deriving DecidableEq, Repr

/-- JavaScript truthiness of an optional string field: an absent field
and the empty string are falsy. -/
def truthy : Option String → Bool
  | none => false
  | some s => !(s == "")

/-- The bot text chosen by the response handler of `sendChatMsg`
(`frontend/chatbot.js` lines 59-70): `response`, else `advice`, else
`reply`, else the fallback string. -/
def selectBotText (d : BotResponse) : String :=
  if truthy d.response then d.response.getD ""
  else if truthy d.advice then d.advice.getD ""
  else if truthy d.reply then d.reply.getD ""
  else "⚠️ No response content."

/-- The bot bubble markup of `showBotMsg` (`frontend/chatbot.js`
lines 89-91). -/
def botBubbleHtml (text : String) : String :=
  "<div class=\"chat-avatar\">🤖</div><div class=\"chat-bubble bot-bubble\">" ++
    text ++ "</div>"

/-- Effect of a successfully parsed backend response: `showBotMsg`
appends one bot message holding the selected text. -/
def handleBotResponse (st : ChatState) (d : BotResponse) : ChatState :=
  { st with messages := st.messages ++
      [{ cls := "chat-msg bot", html := botBubbleHtml (selectBotText d) }] }

/-! ## Theorems: drift analyzer -/

/-- C1: For every 3-point drift window, the drift classification follows
the priority order: drift ≥ 25 with positive slope is HIGH; otherwise
drift ≥ 15 with positive slope is MODERATE; drift below 15 or non-positive
slope is STABLE; and a drift below 25 (e.g. 24.999) is never HIGH, so it
is at most MODERATE. -/
theorem drift_classification_priority (n1 n2 n3 : ℕ) (a b c : ℚ) :
    (25 ≤ (detectRiskDrift [(n1, a), (n2, b), (n3, c)]).drift_value ∧
        0 < (detectRiskDrift [(n1, a), (n2, b), (n3, c)]).slope →
      (detectRiskDrift [(n1, a), (n2, b), (n3, c)]).alert_level = AlertLevel.HIGH) ∧
    ((detectRiskDrift [(n1, a), (n2, b), (n3, c)]).drift_value < 25 →
      15 ≤ (detectRiskDrift [(n1, a), (n2, b), (n3, c)]).drift_value →
      0 < (detectRiskDrift [(n1, a), (n2, b), (n3, c)]).slope →
      (detectRiskDrift [(n1, a), (n2, b), (n3, c)]).alert_level = AlertLevel.MODERATE) ∧
    ((detectRiskDrift [(n1, a), (n2, b), (n3, c)]).drift_value < 15 ∨
        (detectRiskDrift [(n1, a), (n2, b), (n3, c)]).slope ≤ 0 →
      (detectRiskDrift [(n1, a), (n2, b), (n3, c)]).alert_level = AlertLevel.STABLE) ∧
    ((detectRiskDrift [(n1, a), (n2, b), (n3, c)]).drift_value < 25 →
      (detectRiskDrift [(n1, a), (n2, b), (n3, c)]).alert_level ≠ AlertLevel.HIGH) := by
  have hdrift : (detectRiskDrift [(n1, a), (n2, b), (n3, c)]).drift_value = driftValue a c := rfl
  have hslope : (detectRiskDrift [(n1, a), (n2, b), (n3, c)]).slope = olsSlope a b c := rfl
  have halert : (detectRiskDrift [(n1, a), (n2, b), (n3, c)]).alert_level =
      classifyDrift (driftValue a c) (olsSlope a b c) := rfl
  rw [hdrift, hslope, halert]
  unfold classifyDrift
  refine ⟨?_, ?_, ?_, ?_⟩
  · rintro ⟨h1, h2⟩
    rw [if_pos ⟨h1, h2⟩]
  · intro hlt h15 hs
    rw [if_neg (by rintro ⟨h1, _⟩; linarith), if_pos ⟨h15, hs⟩]
  · rintro (h | h)
    · rw [if_neg (by rintro ⟨h1, _⟩; linarith), if_neg (by rintro ⟨h1, _⟩; linarith)]
    · rw [if_neg (by rintro ⟨_, h2⟩; linarith), if_neg (by rintro ⟨_, h2⟩; linarith)]
  · intro hlt
    rw [if_neg (by rintro ⟨h1, _⟩; linarith)]
    split
    · intro hcontra
      exact AlertLevel.noConfusion hcontra
    · intro hcontra
      exact AlertLevel.noConfusion hcontra

/-- Witness for C1: a window rising from 100 to 125 has drift exactly 25%
and a positive slope, and is classified HIGH. -/
theorem drift_classification_priority_witness :
    (25 ≤ (detectRiskDrift [(1, 100), (2, 110), (3, 125)]).drift_value ∧
      0 < (detectRiskDrift [(1, 100), (2, 110), (3, 125)]).slope) ∧
    (detectRiskDrift [(1, 100), (2, 110), (3, 125)]).alert_level = AlertLevel.HIGH := by
  have h : 25 ≤ (detectRiskDrift [(1, 100), (2, 110), (3, 125)]).drift_value ∧
      0 < (detectRiskDrift [(1, 100), (2, 110), (3, 125)]).slope := by
    constructor
    · show (25 : ℚ) ≤ driftValue 100 125
      norm_num [driftValue]
    · show (0 : ℚ) < olsSlope 100 110 125
      norm_num [olsSlope]
  exact ⟨h, (drift_classification_priority 1 2 3 100 110 125).1 h⟩

/-- C4: With fewer than 3 history points the drift analyzer returns a
normal result (no error) whose alert level is STABLE and whose trend is
reported as "insufficient data". -/
theorem drift_insufficient_history (history : List (ℕ × ℚ))
    (h : history.length < 3) :
    (detectRiskDrift history).alert_level = AlertLevel.STABLE ∧
    (detectRiskDrift history).trend = "insufficient data" := by
  unfold detectRiskDrift
  rw [if_pos h]
  exact ⟨rfl, rfl⟩

/-- Witness for C4: a single-visit history is below the 3-point threshold
and yields the STABLE / insufficient-data result. -/
theorem drift_insufficient_history_witness :
    ([((1 : ℕ), (50 : ℚ))].length < 3) ∧
    ((detectRiskDrift [((1 : ℕ), (50 : ℚ))]).alert_level = AlertLevel.STABLE ∧
      (detectRiskDrift [((1 : ℕ), (50 : ℚ))]).trend = "insufficient data") :=
  ⟨by decide, drift_insufficient_history [((1 : ℕ), (50 : ℚ))] (by decide)⟩

/-- C5: On every 3-point window the computed drift value is the percentage
change (last - first) / first * 100 when the first risk score is nonzero,
and the raw absolute increase last - first when the first score is 0; the
computation is total over all 3-point windows. -/
theorem drift_value_formula (n1 n2 n3 : ℕ) (a b c : ℚ) :
    (detectRiskDrift [(n1, a), (n2, b), (n3, c)]).drift_value =
      if a = 0 then c - a else (c - a) / a * 100 := rfl

/-- C6: The drift analyzer is deterministic: identical 3-point windows
yield identical DriftResult records, field by field. -/
theorem drift_deterministic (w1 w2 : List (ℕ × ℚ)) (h : w1 = w2) :
    detectRiskDrift w1 = detectRiskDrift w2 ∧
    (detectRiskDrift w1).alert_level = (detectRiskDrift w2).alert_level ∧
    (detectRiskDrift w1).drift_value = (detectRiskDrift w2).drift_value ∧
    (detectRiskDrift w1).slope = (detectRiskDrift w2).slope ∧
    (detectRiskDrift w1).trend = (detectRiskDrift w2).trend ∧
    (detectRiskDrift w1).message = (detectRiskDrift w2).message := by
  subst h
  exact ⟨rfl, rfl, rfl, rfl, rfl, rfl⟩

/-- Witness for C6: two syntactically identical windows produce the same
DriftResult. -/
theorem drift_deterministic_witness :
    ([((1 : ℕ), (30 : ℚ)), (2, 55), (3, 78)] =
      [((1 : ℕ), (30 : ℚ)), (2, 55), (3, 78)]) ∧
    detectRiskDrift [((1 : ℕ), (30 : ℚ)), (2, 55), (3, 78)] =
      detectRiskDrift [((1 : ℕ), (30 : ℚ)), (2, 55), (3, 78)] :=
  ⟨rfl, (drift_deterministic [((1 : ℕ), (30 : ℚ)), (2, 55), (3, 78)]
    [((1 : ℕ), (30 : ℚ)), (2, 55), (3, 78)] rfl).1⟩

/-! ## Theorems: argmax selection -/

/-- The selected index attains a value at least each of the four entries. -/
theorem argmax4_le_all {α : Type} [LinearOrderedField α] (p : Fin 4 → α) :
    p 0 ≤ p (argmax4 p) ∧ p 1 ≤ p (argmax4 p) ∧
    p 2 ≤ p (argmax4 p) ∧ p 3 ≤ p (argmax4 p) := by
  unfold argmax4
  split_ifs <;> refine ⟨?_, ?_, ?_, ?_⟩ <;> linarith

/-- The selected index attains the maximum value. -/
theorem argmax4_le {α : Type} [LinearOrderedField α] (p : Fin 4 → α) (j : Fin 4) :
    p j ≤ p (argmax4 p) := by
  obtain ⟨h0, h1, h2, h3⟩ := argmax4_le_all p
  fin_cases j
  · exact h0
  · exact h1
  · exact h2
  · exact h3

/-- Every index strictly below the selected one carries a strictly smaller
value: the selection is the least index attaining the maximum. -/
theorem argmax4_lt_all {α : Type} [LinearOrderedField α] (p : Fin 4 → α) :
    ((0 : Fin 4) < argmax4 p → p 0 < p (argmax4 p)) ∧
    ((1 : Fin 4) < argmax4 p → p 1 < p (argmax4 p)) ∧
    ((2 : Fin 4) < argmax4 p → p 2 < p (argmax4 p)) ∧
    ((3 : Fin 4) < argmax4 p → p 3 < p (argmax4 p)) := by
  unfold argmax4
  split_ifs <;> refine ⟨fun h => ?_, fun h => ?_, fun h => ?_, fun h => ?_⟩ <;>
    first
      | exact absurd h (by decide)
      | linarith

/-- Any index attaining the maximum is at or above the selected index. -/
theorem argmax4_min {α : Type} [LinearOrderedField α] (p : Fin 4 → α) (j : Fin 4)
    (hj : p (argmax4 p) ≤ p j) : argmax4 p ≤ j := by
  by_contra hcon
  push_neg at hcon
  obtain ⟨g0, g1, g2, g3⟩ := argmax4_lt_all p
  have hlt : p j < p (argmax4 p) := by
    fin_cases j
    · exact g0 hcon
    · exact g1 hcon
    · exact g2 hcon
    · exact g3 hcon
  linarith

/-- `stageIdx` inverts `stageOfIdx`. -/
theorem stageIdx_ofIdx (k : Fin 4) : stageIdx (stageOfIdx k) = k := by
  fin_cases k <;> rfl

/-! ## Theorems: stage classifier -/

/-- The normalizing constant is positive. -/
theorem sumExp_pos (s : Fin 4 → ℝ) : 0 < sumExp s := by
  have h0 := Real.exp_pos (s 0 - maxScore s)
  have h1 := Real.exp_pos (s 1 - maxScore s)
  have h2 := Real.exp_pos (s 2 - maxScore s)
  have h3 := Real.exp_pos (s 3 - maxScore s)
  unfold sumExp expShift
  linarith

/-- Each shifted exponential is at most the normalizing constant. -/
theorem expShift_le_sumExp_all (s : Fin 4 → ℝ) :
    expShift s 0 ≤ sumExp s ∧ expShift s 1 ≤ sumExp s ∧
    expShift s 2 ≤ sumExp s ∧ expShift s 3 ≤ sumExp s := by
  have h0 := Real.exp_pos (s 0 - maxScore s)
  have h1 := Real.exp_pos (s 1 - maxScore s)
  have h2 := Real.exp_pos (s 2 - maxScore s)
  have h3 := Real.exp_pos (s 3 - maxScore s)
  unfold sumExp expShift
  refine ⟨by linarith, by linarith, by linarith, by linarith⟩

/-- Each shifted exponential is at most the normalizing constant. -/
theorem expShift_le_sumExp (s : Fin 4 → ℝ) (i : Fin 4) : expShift s i ≤ sumExp s := by
  obtain ⟨h0, h1, h2, h3⟩ := expShift_le_sumExp_all s
  fin_cases i
  · exact h0
  · exact h1
  · exact h2
  · exact h3

/-- Class probabilities are nonnegative. -/
theorem probPct_nonneg (s : Fin 4 → ℝ) (i : Fin 4) : 0 ≤ probPct s i := by
  unfold probPct
  have h1 : 0 < Real.exp (s i - maxScore s) := Real.exp_pos _
  have h2 := sumExp_pos s
  positivity

/-- Class probabilities are at most 100 percent. -/
theorem probPct_le_100 (s : Fin 4 → ℝ) (i : Fin 4) : probPct s i ≤ 100 := by
  unfold probPct
  have h2 := sumExp_pos s
  have h3 := expShift_le_sumExp s i
  have h4 : expShift s i / sumExp s ≤ 1 := by
    rw [div_le_one h2]
    exact h3
  linarith

/-- The four class probabilities sum to exactly 100 percent. -/
theorem probPct_sum (s : Fin 4 → ℝ) :
    probPct s 0 + probPct s 1 + probPct s 2 + probPct s 3 = 100 := by
  unfold probPct
  have h2 := (sumExp_pos s).ne.symm
  field_simp
  unfold sumExp
  ring

/-- At an all-zero score vector every class probability is 25 percent. -/
theorem probPct_zero_eval (k : Fin 4) : probPct (fun _ => (0 : ℝ)) k = 25 := by
  simp only [probPct, sumExp, expShift, maxScore]
  norm_num

/-- C3: For every input score vector the classifier's output probabilities
are percentages, each in [0,100], summing to 100 within a tolerance of
0.1 (in exact arithmetic the sum is exactly 100), and the returned stage
is the argmax class of the probability distribution: its probability is
maximal among the four classes. -/
theorem classifier_probabilities_valid (s : Fin 4 → ℝ) :
    (∀ i, 0 ≤ probPct s i ∧ probPct s i ≤ 100) ∧
    |probPct s 0 + probPct s 1 + probPct s 2 + probPct s 3 - 100| ≤ 1 / 10 ∧
    predictStage s = stageOfIdx (argmax4 (probPct s)) ∧
    (∀ j, probPct s j ≤ probPct s (stageIdx (predictStage s))) := by
  refine ⟨fun i => ⟨probPct_nonneg s i, probPct_le_100 s i⟩, ?_, rfl, ?_⟩
  · rw [probPct_sum]
    norm_num
  · intro j
    have h : stageIdx (predictStage s) = argmax4 (probPct s) := by
      unfold predictStage
      rw [stageIdx_ofIdx]
    rw [h]
    exact argmax4_le (probPct s) j

/-- C7: When two or more classes tie for the maximum probability, the
classifier returns the lower-severity stage: the returned stage's index
(severity rank) is at most the index of every class attaining the
maximum, and the returned stage itself attains the maximum. -/
theorem classifier_tie_lower_severity (s : Fin 4 → ℝ) (i j : Fin 4)
    (hne : i ≠ j)
    (hmax : ∀ k, probPct s k ≤ probPct s i)
    (htie : probPct s j = probPct s i) :
    (∀ k, probPct s k = probPct s i → stageIdx (predictStage s) ≤ k) ∧
    probPct s (stageIdx (predictStage s)) = probPct s i := by
  have hA : stageIdx (predictStage s) = argmax4 (probPct s) := by
    unfold predictStage
    rw [stageIdx_ofIdx]
  have hmaxA : probPct s (argmax4 (probPct s)) = probPct s i :=
    le_antisymm (hmax _) (argmax4_le (probPct s) i)
  constructor
  · intro k hk
    rw [hA]
    exact argmax4_min (probPct s) k (by rw [hmaxA, hk])
  · rw [hA]
    exact hmaxA

/-- Witness for C7: with all four scores 0 every class probability is 25,
classes 0 and 1 tie for the maximum, and the returned stage's index is
the least tied index. -/
theorem classifier_tie_lower_severity_witness :
    (((0 : Fin 4) ≠ 1) ∧
      (∀ k, probPct (fun _ => (0 : ℝ)) k ≤ probPct (fun _ => (0 : ℝ)) 0) ∧
      probPct (fun _ => (0 : ℝ)) 1 = probPct (fun _ => (0 : ℝ)) 0) ∧
    ((∀ k, probPct (fun _ => (0 : ℝ)) k = probPct (fun _ => (0 : ℝ)) 0 →
        stageIdx (predictStage (fun _ => (0 : ℝ))) ≤ k) ∧
      probPct (fun _ => (0 : ℝ)) (stageIdx (predictStage (fun _ => (0 : ℝ)))) =
        probPct (fun _ => (0 : ℝ)) 0) := by
  have hmax : ∀ k, probPct (fun _ => (0 : ℝ)) k ≤ probPct (fun _ => (0 : ℝ)) 0 := by
    intro k
    rw [probPct_zero_eval, probPct_zero_eval]
  have htie : probPct (fun _ => (0 : ℝ)) 1 = probPct (fun _ => (0 : ℝ)) 0 := by
    rw [probPct_zero_eval, probPct_zero_eval]
  exact ⟨⟨by decide, hmax, htie⟩,
    classifier_tie_lower_severity (fun _ => (0 : ℝ)) 0 1 (by decide) hmax htie⟩

/-! ## Theorems: risk score calculator -/

/-- The band of the stage with class index k is [25k, 25k + 25]. -/
theorem stageBand_ofIdx (k : Fin 4) :
    (stageBand (stageOfIdx k)).1 = 25 * (k : ℕ) ∧
    (stageBand (stageOfIdx k)).2 = 25 * (k : ℕ) + 25 := by
  fin_cases k <;> constructor <;> norm_num [stageBand, stageOfIdx]

/-- C2: For every valid probability distribution (percentages, nonnegative,
summing to 100) the risk score lies within the declared band of the
predicted stage: [0,25] for Normal, [25,50] for Stage1, [50,75] for
Stage2 and [75,100] for Crisis. -/
theorem risk_score_in_band (p : Fin 4 → ℚ)
    (hpos : ∀ i, 0 ≤ p i) (hsum : p 0 + p 1 + p 2 + p 3 = 100) :
    (stageBand (stageOfIdx (argmax4 p))).1 ≤ riskScore p ∧
    riskScore p ≤ (stageBand (stageOfIdx (argmax4 p))).2 := by
  obtain ⟨hlo, hhi⟩ := stageBand_ofIdx (argmax4 p)
  have hub : ∀ k : Fin 4, p k ≤ 100 := by
    intro k
    have h0 := hpos 0
    have h1 := hpos 1
    have h2 := hpos 2
    have h3 := hpos 3
    fin_cases k
    · show p 0 ≤ 100
      linarith
    · show p 1 ≤ 100
      linarith
    · show p 2 ≤ 100
      linarith
    · show p 3 ≤ 100
      linarith
  have hk1 := hpos (argmax4 p)
  have hk2 := hub (argmax4 p)
  rw [hlo, hhi]
  unfold riskScore
  constructor <;> linarith

/-- Witness for C2: the uniform distribution (25 percent each) is valid
and its risk score lies in the predicted stage's band. -/
theorem risk_score_in_band_witness :
    ((∀ i : Fin 4, 0 ≤ (fun _ : Fin 4 => (25 : ℚ)) i) ∧
      (fun _ : Fin 4 => (25 : ℚ)) 0 + (fun _ : Fin 4 => (25 : ℚ)) 1 +
        (fun _ : Fin 4 => (25 : ℚ)) 2 + (fun _ : Fin 4 => (25 : ℚ)) 3 = 100) ∧
    ((stageBand (stageOfIdx (argmax4 (fun _ : Fin 4 => (25 : ℚ))))).1 ≤
        riskScore (fun _ : Fin 4 => (25 : ℚ)) ∧
      riskScore (fun _ : Fin 4 => (25 : ℚ)) ≤
        (stageBand (stageOfIdx (argmax4 (fun _ : Fin 4 => (25 : ℚ))))).2) :=
  ⟨⟨fun _ => by norm_num, by norm_num⟩,
    risk_score_in_band (fun _ : Fin 4 => (25 : ℚ)) (fun _ => by norm_num) (by norm_num)⟩

/-! ## Theorems: chat widget -/

/-- Escaped output never contains a raw less-than character. -/
theorem escList_no_lt (l : List Char) : '<' ∉ escList l := by
  induction l with
  | nil => simp [escList]
  | cons c cs ih =>
    simp only [escList, List.mem_append]
    rintro (h | h)
    · unfold escChar at h
      split_ifs at h with h1 h2 h3 <;>
        first
          | exact absurd h (by decide)
          | exact absurd (List.mem_singleton.mp h).symm h2
    · exact ih h

/-- Escaped output never contains a raw greater-than character. -/
theorem escList_no_gt (l : List Char) : '>' ∉ escList l := by
  induction l with
  | nil => simp [escList]
  | cons c cs ih =>
    simp only [escList, List.mem_append]
    rintro (h | h)
    · unfold escChar at h
      split_ifs at h with h1 h2 h3 <;>
        first
          | exact absurd h (by decide)
          | exact absurd (List.mem_singleton.mp h).symm h3
    · exact ih h

/-- Every ampersand in escaped output begins an entity. -/
theorem ampOk_escList (l : List Char) : ampEntitiesOnly (escList l) = true := by
  induction l with
  | nil => rfl
  | cons c cs ih =>
    by_cases h1 : c = '&'
    · subst h1
      simp [escList, escChar, ampEntitiesOnly, entityTails, List.isPrefixOf, ih]
    · by_cases h2 : c = '<'
      · subst h2
        simp [escList, escChar, ampEntitiesOnly, entityTails, List.isPrefixOf, ih]
      · by_cases h3 : c = '>'
        · subst h3
          simp [escList, escChar, ampEntitiesOnly, entityTails, List.isPrefixOf, ih]
        · simp [escList, escChar, ampEntitiesOnly, h1, h2, h3, ih]

/-- C8: `escapeHtml` maps every input to its HTML-escaped form — the
output contains no raw `<` or `>` at all, and every `&` only as the
start of one of the entities `&amp;`, `&lt;`, `&gt;` — and the user
bubble markup of `sendChatMsg` wraps exactly the escaped text in its
fixed template, so the bubble carries no raw markup from the input. -/
theorem escape_html_sanitizes (s : String) :
    userBubbleHtml s =
      "<div class=\"chat-bubble user-bubble\">" ++ escapeHtml s ++ "</div>" ∧
    '<' ∉ (escapeHtml s).data ∧ '>' ∉ (escapeHtml s).data ∧
    ampEntitiesOnly (escapeHtml s).data = true :=
  ⟨rfl, escList_no_lt s.data, escList_no_gt s.data, ampOk_escList s.data⟩

/-- C9: When the field value trims to the empty string, `sendChatMsg`
changes nothing: no message is appended, the field is not cleared, no
network request is issued. -/
theorem send_chat_empty_noop (st : ChatState) (h : jsTrim st.inputValue = "") :
    sendChatMsg st = st ∧
    (sendChatMsg st).messages = st.messages ∧
    (sendChatMsg st).inputValue = st.inputValue ∧
    (sendChatMsg st).requests = st.requests := by
  have heq : sendChatMsg st = st := by
    unfold sendChatMsg
    rw [if_pos h]
  exact ⟨heq, by rw [heq], by rw [heq], by rw [heq]⟩

/-- Witness for C9: a whitespace-only field trims to empty and the state
is unchanged. -/
theorem send_chat_empty_noop_witness :
    jsTrim (ChatState.mk "   " [] []).inputValue = "" ∧
    (sendChatMsg (ChatState.mk "   " [] []) = ChatState.mk "   " [] [] ∧
      (sendChatMsg (ChatState.mk "   " [] [])).messages = (ChatState.mk "   " [] []).messages ∧
      (sendChatMsg (ChatState.mk "   " [] [])).inputValue = (ChatState.mk "   " [] []).inputValue ∧
      (sendChatMsg (ChatState.mk "   " [] [])).requests = (ChatState.mk "   " [] []).requests) :=
  ⟨rfl, send_chat_empty_noop (ChatState.mk "   " [] []) rfl⟩

/-- C10: The displayed bot text is chosen by fixed priority — the
`response` field if truthy, else `advice`, else `reply`, else the
literal fallback — and the handler appends exactly one bot message
holding that text. -/
theorem bot_text_priority (d : BotResponse) :
    (∀ s, d.response = some s → s ≠ "" → selectBotText d = s) ∧
    (truthy d.response = false →
      ∀ s, d.advice = some s → s ≠ "" → selectBotText d = s) ∧
    (truthy d.response = false → truthy d.advice = false →
      ∀ s, d.reply = some s → s ≠ "" → selectBotText d = s) ∧
    (truthy d.response = false → truthy d.advice = false → truthy d.reply = false →
      selectBotText d = "⚠️ No response content.") ∧
    (∀ st, (handleBotResponse st d).messages =
      st.messages ++ [{ cls := "chat-msg bot", html := botBubbleHtml (selectBotText d) }]) := by
  refine ⟨?_, ?_, ?_, ?_, fun st => rfl⟩
  · intro s hs hne
    have ht : truthy (some s) = true := by
      simp [truthy, hne]
    simp [selectBotText, hs, ht]
  · intro hf s hs hne
    have ht : truthy (some s) = true := by
      simp [truthy, hne]
    simp [selectBotText, hf, hs, ht]
  · intro hf1 hf2 s hs hne
    have ht : truthy (some s) = true := by
      simp [truthy, hne]
    simp [selectBotText, hf1, hf2, hs, ht]
  · intro hf1 hf2 hf3
    simp [selectBotText, hf1, hf2, hf3]

/-- Witness for C10: a response object whose `response` field is the
nonempty string "hello" displays exactly "hello". -/
theorem bot_text_priority_witness :
    ((BotResponse.mk (some "hello") none none).response = some "hello" ∧
      "hello" ≠ "") ∧
    selectBotText (BotResponse.mk (some "hello") none none) = "hello" :=
  ⟨⟨rfl, by decide⟩,
    (bot_text_priority (BotResponse.mk (some "hello") none none)).1 "hello" rfl (by decide)⟩
